import Mathlib

/-!
# Verification of boggart's template validation engine

A shallow embedding of `pkg/template/template.go` from the boggart
honeypot: the template data model, the dispatch-by-type validator
(`CheckTemplate`, `CheckRawTeplate`, `CheckShodanTemplate` and their
sub-checks) and the small pure helpers (`Default`,
`HTTPMethodsAsString`), together with theorems settling the spec's
claims about them.

Go `error` results are embedded as `Except String Unit`: `.ok ()` is a
`nil` error and `.error msg` carries the exact message built by
`errors.New` / string concatenation in the source.
-/

namespace Boggart

/-- Go `type Type string` (the template type tag). -/
abbrev TemplateType := String

/-- Go `type HTTPMethod string`. -/
abbrev HTTPMethod := String

/-- Go `type ResponseType string`. -/
abbrev ResponseType := String

/-- Go constant `RawTemplateType Type = "raw"`. -/
def RawTemplateType : TemplateType := "raw"

/-- Go constant `ShodanTemplateType Type = "shodan"`. -/
def ShodanTemplateType : TemplateType := "shodan"

/-- Go constant `MethodGet HTTPMethod = "GET"`. -/
def MethodGet : HTTPMethod := "GET"

/-- Go constant `MethodPost HTTPMethod = "POST"`. -/
def MethodPost : HTTPMethod := "POST"

/-- Go struct `Request`: one rule of a raw template. Field names follow
the source. -/
structure Request where
  ID : String
  Methods : List HTTPMethod
  Endpoint : String
  ResponseType : ResponseType
  ContentType : String
  Content : String
deriving DecidableEq

/-- Go struct `Template`. The Go field `Type` is rendered `type` here
because `Type` is reserved in Lean; the other fields keep their names. -/
structure Template where
  type : TemplateType
  Requests : List Request
  Ignore : List String
  IP : String
deriving DecidableEq

/-- The Go zero value `Request{}`: every field at its zero value. -/
def Request.empty : Request :=
  { ID := "", Methods := [], Endpoint := "", ResponseType := "",
    ContentType := "", Content := "" }

/-- Go `strings.Trim(s, " ")`: remove leading and trailing space
characters (only `' '`, not general whitespace). -/
def trimSpaces (s : String) : String :=
  ⟨((s.data.dropWhile fun c => c = ' ').reverse.dropWhile fun c => c = ' ').reverse⟩

/-- The blankness test the validator applies to mandatory string
fields: `strings.Trim(s, " ") == ""`. -/
def blank (s : String) : Bool :=
  trimSpaces s == ""

/-- The first-occurrence de-duplication loop shared by `IDUnique` and
`EndpointUnique` in the source: a `keys` set plus an output `list`,
appending each element the first time it is seen, preserving order. -/
def dedupFirst (l : List String) : List String :=
  l.foldl (fun acc x => if x ∈ acc then acc else acc ++ [x]) []

/-- Modelled from the spec: `slice.RemoveDuplicateValues` lives in the
repository's `internal/slice` package, which is not among the provided
sources; the spec describes `CheckIgnore`'s duplicate test as comparing
the list's length with that of its order-preserving de-duplication, the
same first-occurrence loop `IDUnique` and `EndpointUnique` inline. -/
def RemoveDuplicateValues (l : List String) : List String :=
  dedupFirst l

/-- Go `IDUnique`: for a raw template, collect the request IDs by
first-occurrence de-duplication and compare lengths; `true` for any
other template type. -/
def IDUnique (tmpl : Template) : Bool :=
  if tmpl.type = "raw" then
    let list := tmpl.Requests.foldl
      (fun list entry => if entry.ID ∈ list then list else list ++ [entry.ID]) []
    tmpl.Requests.length == list.length
  else
    true

/-- Go `EndpointUnique`: the same loop applied to request endpoints. -/
def EndpointUnique (tmpl : Template) : Bool :=
  if tmpl.type = "raw" then
    let list := tmpl.Requests.foldl
      (fun list entry => if entry.Endpoint ∈ list then list else list ++ [entry.Endpoint]) []
    tmpl.Requests.length == list.length
  else
    true

/-- Go `MissingTemplateDefault`: for a raw template, scan all requests
and clear the `missing` flag on any entry with id `"default"`; `false`
for any other template type. -/
def MissingTemplateDefault (tmpl : Template) : Bool :=
  if tmpl.type = "raw" then
    tmpl.Requests.foldl
      (fun missing entry => if entry.ID = "default" then false else missing) true
  else
    false

/-- Go `Default`: for a raw template, return the first request whose id
is `"default"` (the loop returns on the first match); the zero
`Request{}` when none exists or for any other template type. -/
def Default (tmpl : Template) : Request :=
  if tmpl.type = "raw" then
    match tmpl.Requests.find? (fun entry => entry.ID == "default") with
    | some entry => entry
    | none => Request.empty
  else
    Request.empty

/-- Go `HTTPMethodsAsString`: append `string(method)` for each method to
an initially empty slice. -/
def HTTPMethodsAsString (methods : List HTTPMethod) : List String :=
  methods.foldl (fun result method => result ++ [method]) []

/-- Go `CheckShodanTemplate`: error unless `IP` is the empty string. -/
def CheckShodanTemplate (tmpl : Template) : Except String Unit :=
  if tmpl.IP ≠ "" then
    .error "template: ip is mandatory"
  else
    .ok ()

/-- The loop body of Go `CheckRequests`, one request at a time: blank
id is an error for every request; a non-default request additionally
needs a non-blank endpoint, a non-empty method list and non-blank
response type, content type and content, tested in that order. -/
def CheckRequestsLoop : List Request → Except String Unit
  | [] => .ok ()
  | entry :: rest =>
    if blank entry.ID then
      .error "template: missing id in request"
    else if entry.ID ≠ "default" then
      if blank entry.Endpoint then
        .error ("template: missing endpoint in request with id " ++ entry.ID)
      else if entry.Methods.length = 0 then
        .error ("template: missing methods in request with id " ++ entry.ID)
      else if blank entry.ResponseType then
        .error ("template: missing response type in request with id " ++ entry.ID)
      else if blank entry.ContentType then
        .error ("template: missing content type in request with id " ++ entry.ID)
      else if blank entry.Content then
        .error ("template: missing content in request with id " ++ entry.ID)
      else
        CheckRequestsLoop rest
    else
      CheckRequestsLoop rest

/-- Go `CheckRequests`: run the loop over the template's requests in
declared order. -/
def CheckRequests (tmpl : Template) : Except String Unit :=
  CheckRequestsLoop tmpl.Requests

/-- Go `CheckDefaultRequest`: fetch the default request via `Default`
and require non-blank response type, content type and content, in that
order. -/
def CheckDefaultRequest (tmpl : Template) : Except String Unit :=
  let entry := Default tmpl
  if blank entry.ResponseType then
    .error "template: missing response type in default request"
  else if blank entry.ContentType then
    .error "template: missing content type in default request"
  else if blank entry.Content then
    .error "template: missing content in default request"
  else
    .ok ()

/-- The leading-slash loop of Go `CheckIgnore` (`path[0] != '/'`). The
source indexes the first byte directly, which faults on an empty entry;
following the spec's direction, an empty entry is treated here as
failing the leading-slash test rather than as a low-level fault, so the
test reads the first character through `List.head?`. -/
def CheckIgnoreSlashLoop : List String → Except String Unit
  | [] => .ok ()
  | path :: rest =>
    if path.data.head? ≠ some '/' then
      .error "template: all paths in ignore array must start with a forward slash"
    else
      CheckIgnoreSlashLoop rest

/-- The final loop of Go `CheckIgnore`: error on the first ignore entry
that equals some request's endpoint. -/
def CheckIgnoreConflictLoop (requests : List Request) : List String → Except String Unit
  | [] => .ok ()
  | ignoreElem :: rest =>
    if requests.any (fun request => ignoreElem == request.Endpoint) then
      .error "template: path defined both in ignore and requests"
    else
      CheckIgnoreConflictLoop requests rest

/-- Go `CheckIgnore`: empty list passes; otherwise duplicate check by
length comparison with `RemoveDuplicateValues`, then the leading-slash
loop, then the ignore/endpoint conflict loop. -/
def CheckIgnore (tmpl : Template) : Except String Unit :=
  let input := tmpl.Ignore
  if input.length = 0 then
    .ok ()
  else if input.length ≠ (RemoveDuplicateValues input).length then
    .error "template: duplicate paths in ignore array"
  else
    match CheckIgnoreSlashLoop input with
    | .error e => .error e
    | .ok _ => CheckIgnoreConflictLoop tmpl.Requests input

/-- Go `CheckRawTeplate`: the six checks in source order, returning the
first failure. -/
def CheckRawTeplate (tmpl : Template) : Except String Unit :=
  if !(IDUnique tmpl) then
    .error "template: request IDs are not unique"
  else if !(EndpointUnique tmpl) then
    .error "template: request endpoints are not unique"
  else if MissingTemplateDefault tmpl then
    .error "template: missing default request"
  else
    match CheckRequests tmpl with
    | .error e => .error e
    | .ok _ =>
      match CheckDefaultRequest tmpl with
      | .error e => .error e
      | .ok _ => CheckIgnore tmpl

/-- Go `CheckTemplate`: dispatch on the type tag. -/
def CheckTemplate (tmpl : Template) : Except String Unit :=
  if tmpl.type = "" then
    .error "template: missing template type"
  else if tmpl.type = "raw" then
    CheckRawTeplate tmpl
  else if tmpl.type = "shodan" then
    CheckShodanTemplate tmpl
  else
    .ok ()

/-!
## Spec-side definitions

These follow the spec's and claims' words, for comparison with the
embedded source functions.
-/

/-- The error `CheckRequests` assigns to a single request, in the
claim's field order: blank id first; then, for a non-default request,
endpoint, methods, response type, content type, content. -/
def ruleError (entry : Request) : Option String :=
  if blank entry.ID then
    some "template: missing id in request"
  else if entry.ID ≠ "default" then
    if blank entry.Endpoint then
      some ("template: missing endpoint in request with id " ++ entry.ID)
    else if entry.Methods.length = 0 then
      some ("template: missing methods in request with id " ++ entry.ID)
    else if blank entry.ResponseType then
      some ("template: missing response type in request with id " ++ entry.ID)
    else if blank entry.ContentType then
      some ("template: missing content type in request with id " ++ entry.ID)
    else if blank entry.Content then
      some ("template: missing content in request with id " ++ entry.ID)
    else
      none
  else
    none

/-- The validity condition claim C1 states for raw templates, written
as the claim words it: ids pairwise distinct, endpoints pairwise
distinct, exactly one default rule, every non-default rule complete,
the default rule complete, and the ignore list (if non-empty) without
duplicates, all entries absolute, and no entry equal to a rule
endpoint. -/
def ClaimedRawValid (tmpl : Template) : Prop :=
  (tmpl.Requests.map Request.ID).Nodup ∧
  (tmpl.Requests.map Request.Endpoint).Nodup ∧
  tmpl.Requests.countP (fun r => r.ID == "default") = 1 ∧
  (∀ r ∈ tmpl.Requests, r.ID ≠ "default" →
    blank r.Endpoint = false ∧ r.Methods ≠ [] ∧ blank r.ResponseType = false ∧
    blank r.ContentType = false ∧ blank r.Content = false) ∧
  (∀ r ∈ tmpl.Requests, r.ID = "default" →
    blank r.ResponseType = false ∧ blank r.ContentType = false ∧
    blank r.Content = false) ∧
  (tmpl.Ignore ≠ [] →
    tmpl.Ignore.Nodup ∧
    (∀ p ∈ tmpl.Ignore, p.data.head? = some '/') ∧
    (∀ p ∈ tmpl.Ignore, ∀ r ∈ tmpl.Requests, p ≠ r.Endpoint))

/-- The amended validity condition: `ClaimedRawValid` plus the one
condition the code also enforces and C1 omits, a non-blank id on every
rule. -/
def RawValid (tmpl : Template) : Prop :=
  ClaimedRawValid tmpl ∧ ∀ r ∈ tmpl.Requests, blank r.ID = false

/-!
## Helper lemmas: the first-occurrence de-duplication loop

`dedupFirst` keeps the list's length exactly when the list has no
duplicates; on a list with a duplicate its output is strictly shorter.
-/

/-- One step of the de-duplication fold. -/
def dstep (acc : List String) (x : String) : List String :=
  if x ∈ acc then acc else acc ++ [x]

theorem dstep_subset {acc : List String} {a : String} (x : String) (h : a ∈ acc) :
    a ∈ dstep acc x := by
  unfold dstep
  split
  · exact h
  · exact List.mem_append_left _ h

theorem dstep_mem_self (acc : List String) (x : String) : x ∈ dstep acc x := by
  unfold dstep
  split
  · assumption
  · exact List.mem_append_right _ (List.mem_singleton.mpr rfl)

theorem dstep_length_le (acc : List String) (x : String) :
    (dstep acc x).length ≤ acc.length + 1 := by
  unfold dstep
  split
  · exact Nat.le_succ _
  · simp

theorem foldl_dstep_length_le (l acc : List String) :
    (l.foldl dstep acc).length ≤ acc.length + l.length := by
  induction l generalizing acc with
  | nil => simp
  | cons y ys ih =>
    calc (List.foldl dstep (dstep acc y) ys).length
        ≤ (dstep acc y).length + ys.length := ih _
      _ ≤ acc.length + 1 + ys.length :=
          Nat.add_le_add_right (dstep_length_le acc y) _
      _ = acc.length + (y :: ys).length := by simp [Nat.add_assoc, Nat.add_comm 1]

theorem foldl_dstep_length_lt_of_mem {l : List String} {x : String} (acc : List String)
    (hx : x ∈ l) (hacc : x ∈ acc) :
    (l.foldl dstep acc).length < acc.length + l.length := by
  induction l generalizing acc with
  | nil => cases hx
  | cons y ys ih =>
    rcases List.mem_cons.mp hx with hxy | hxs
    · subst hxy
      have hstep : dstep acc x = acc := by unfold dstep; exact if_pos hacc
      calc (List.foldl dstep (dstep acc x) ys).length
          = (List.foldl dstep acc ys).length := by rw [hstep]
        _ ≤ acc.length + ys.length := foldl_dstep_length_le ys acc
        _ < acc.length + (x :: ys).length := by simp [Nat.lt_succ_self]
    · calc (List.foldl dstep (dstep acc y) ys).length
          < (dstep acc y).length + ys.length := ih _ hxs (dstep_subset y hacc)
        _ ≤ acc.length + 1 + ys.length :=
            Nat.add_le_add_right (dstep_length_le acc y) _
        _ = acc.length + (y :: ys).length := by simp [Nat.add_assoc, Nat.add_comm 1]

theorem foldl_dstep_length_lt_of_not_nodup {l : List String} (acc : List String)
    (h : ¬ l.Nodup) :
    (l.foldl dstep acc).length < acc.length + l.length := by
  induction l generalizing acc with
  | nil => exact absurd List.nodup_nil h
  | cons y ys ih =>
    by_cases hy : y ∈ ys
    · calc (List.foldl dstep (dstep acc y) ys).length
          < (dstep acc y).length + ys.length :=
            foldl_dstep_length_lt_of_mem _ hy (dstep_mem_self acc y)
        _ ≤ acc.length + 1 + ys.length :=
            Nat.add_le_add_right (dstep_length_le acc y) _
        _ = acc.length + (y :: ys).length := by simp [Nat.add_assoc, Nat.add_comm 1]
    · have hys : ¬ ys.Nodup := fun hnd => h (List.nodup_cons.mpr ⟨hy, hnd⟩)
      calc (List.foldl dstep (dstep acc y) ys).length
          < (dstep acc y).length + ys.length := ih _ hys
        _ ≤ acc.length + 1 + ys.length :=
            Nat.add_le_add_right (dstep_length_le acc y) _
        _ = acc.length + (y :: ys).length := by simp [Nat.add_assoc, Nat.add_comm 1]

theorem foldl_dstep_eq_append_of_nodup {l : List String} (acc : List String)
    (hd : ∀ x ∈ l, x ∉ acc) (h : l.Nodup) :
    l.foldl dstep acc = acc ++ l := by
  induction l generalizing acc with
  | nil => simp
  | cons y ys ih =>
    have hy : y ∉ acc := hd y (List.mem_cons_self y ys)
    have hstep : dstep acc y = acc ++ [y] := by unfold dstep; exact if_neg hy
    have hnd := List.nodup_cons.mp h
    have hd' : ∀ x ∈ ys, x ∉ acc ++ [y] := by
      intro x hxs hmem
      rcases List.mem_append.mp hmem with hin | hin
      · exact hd x (List.mem_cons_of_mem _ hxs) hin
      · exact hnd.1 (List.mem_singleton.mp hin ▸ hxs)
    calc List.foldl dstep (dstep acc y) ys
        = List.foldl dstep (acc ++ [y]) ys := by rw [hstep]
      _ = (acc ++ [y]) ++ ys := ih _ hd' hnd.2
      _ = acc ++ (y :: ys) := by simp

theorem dedupFirst_eq_of_nodup {l : List String} (h : l.Nodup) : dedupFirst l = l := by
  unfold dedupFirst
  have := foldl_dstep_eq_append_of_nodup (l := l) [] (by intro x _ hx; cases hx) h
  simpa [dstep] using this

theorem dedupFirst_length_eq_iff (l : List String) :
    (dedupFirst l).length = l.length ↔ l.Nodup := by
  constructor
  · intro hlen
    by_contra hnd
    have := foldl_dstep_length_lt_of_not_nodup (l := l) [] hnd
    simp only [List.length_nil, Nat.zero_add] at this
    have : (dedupFirst l).length < l.length := by
      simpa [dedupFirst, dstep] using this
    omega
  · intro h
    rw [dedupFirst_eq_of_nodup h]

/-!
## Helper lemmas: the individual checks
-/

theorem IDUnique_eq_true_iff {tmpl : Template} (h : tmpl.type = "raw") :
    IDUnique tmpl = true ↔ (tmpl.Requests.map Request.ID).Nodup := by
  have hfold :
      tmpl.Requests.foldl
        (fun list entry => if entry.ID ∈ list then list else list ++ [entry.ID]) []
        = dedupFirst (tmpl.Requests.map Request.ID) := by
    unfold dedupFirst
    rw [List.foldl_map]
  rw [show IDUnique tmpl
        = (tmpl.Requests.length == (dedupFirst (tmpl.Requests.map Request.ID)).length) by
      simp only [IDUnique, h, if_true, reduceIte, hfold]]
  rw [beq_iff_eq, ← dedupFirst_length_eq_iff (tmpl.Requests.map Request.ID),
    List.length_map]
  exact eq_comm

theorem EndpointUnique_eq_true_iff {tmpl : Template} (h : tmpl.type = "raw") :
    EndpointUnique tmpl = true ↔ (tmpl.Requests.map Request.Endpoint).Nodup := by
  have hfold :
      tmpl.Requests.foldl
        (fun list entry => if entry.Endpoint ∈ list then list else list ++ [entry.Endpoint]) []
        = dedupFirst (tmpl.Requests.map Request.Endpoint) := by
    unfold dedupFirst
    rw [List.foldl_map]
  rw [show EndpointUnique tmpl
        = (tmpl.Requests.length == (dedupFirst (tmpl.Requests.map Request.Endpoint)).length) by
      simp only [EndpointUnique, h, if_true, reduceIte, hfold]]
  rw [beq_iff_eq, ← dedupFirst_length_eq_iff (tmpl.Requests.map Request.Endpoint),
    List.length_map]
  exact eq_comm

theorem foldl_missing_default (l : List Request) (b : Bool) :
    l.foldl (fun missing entry => if entry.ID = "default" then false else missing) b
      = (b && !(l.any (fun e => e.ID == "default"))) := by
  induction l generalizing b with
  | nil => simp
  | cons e es ih =>
    rw [List.foldl_cons, ih]
    by_cases he : e.ID = "default"
    · simp [he]
    · have hbeq : (e.ID == "default") = false := beq_eq_false_iff_ne.mpr he
      simp [he, hbeq]

theorem MissingTemplateDefault_eq_false_iff {tmpl : Template} (h : tmpl.type = "raw") :
    MissingTemplateDefault tmpl = false ↔ ∃ r ∈ tmpl.Requests, r.ID = "default" := by
  unfold MissingTemplateDefault
  rw [if_pos h, foldl_missing_default]
  simp [List.any_eq_true]

theorem CheckRequestsLoop_cons (entry : Request) (rest : List Request) :
    CheckRequestsLoop (entry :: rest)
      = (match ruleError entry with
         | some e => Except.error e
         | none => CheckRequestsLoop rest) := by
  simp only [CheckRequestsLoop, ruleError]
  split_ifs <;> rfl

theorem CheckRequestsLoop_eq_findSome? (l : List Request) :
    CheckRequestsLoop l
      = (match l.findSome? ruleError with
         | some e => Except.error e
         | none => Except.ok ()) := by
  induction l with
  | nil => rfl
  | cons entry rest ih =>
    rw [CheckRequestsLoop_cons, List.findSome?_cons]
    cases ruleError entry <;> simp [ih]

theorem CheckRequests_ok_iff (tmpl : Template) :
    CheckRequests tmpl = .ok () ↔ ∀ r ∈ tmpl.Requests, ruleError r = none := by
  rw [CheckRequests, CheckRequestsLoop_eq_findSome?, ← List.findSome?_eq_none_iff]
  cases tmpl.Requests.findSome? ruleError <;> simp

theorem ruleError_eq_none_iff (r : Request) :
    ruleError r = none ↔
      blank r.ID = false ∧
      (r.ID ≠ "default" →
        blank r.Endpoint = false ∧ r.Methods ≠ [] ∧ blank r.ResponseType = false ∧
        blank r.ContentType = false ∧ blank r.Content = false) := by
  unfold ruleError
  split_ifs with h1 h2 h3 h4 h5 h6 h7 <;>
    simp_all [List.length_eq_zero]

theorem CheckDefaultRequest_ok_iff (tmpl : Template) :
    CheckDefaultRequest tmpl = .ok () ↔
      blank (Default tmpl).ResponseType = false ∧
      blank (Default tmpl).ContentType = false ∧
      blank (Default tmpl).Content = false := by
  simp only [CheckDefaultRequest]
  split_ifs <;> simp_all

theorem CheckIgnoreSlashLoop_ok_iff (l : List String) :
    CheckIgnoreSlashLoop l = .ok () ↔ ∀ p ∈ l, p.data.head? = some '/' := by
  induction l with
  | nil => simp [CheckIgnoreSlashLoop]
  | cons path rest ih =>
    unfold CheckIgnoreSlashLoop
    split_ifs with h <;> simp_all

theorem CheckIgnoreConflictLoop_ok_iff (requests : List Request) (l : List String) :
    CheckIgnoreConflictLoop requests l = .ok () ↔
      ∀ p ∈ l, ∀ r ∈ requests, p ≠ r.Endpoint := by
  induction l with
  | nil => simp [CheckIgnoreConflictLoop]
  | cons x rest ih =>
    unfold CheckIgnoreConflictLoop
    split_ifs with h <;> simp_all [List.any_eq_true]

theorem CheckIgnore_ok_iff (tmpl : Template) :
    CheckIgnore tmpl = .ok () ↔
      (tmpl.Ignore = [] ∨
        (tmpl.Ignore.Nodup ∧
         (∀ p ∈ tmpl.Ignore, p.data.head? = some '/') ∧
         (∀ p ∈ tmpl.Ignore, ∀ r ∈ tmpl.Requests, p ≠ r.Endpoint))) := by
  unfold CheckIgnore
  by_cases h0 : tmpl.Ignore.length = 0
  · simp [h0, List.length_eq_zero.mp h0]
  · have hne : tmpl.Ignore ≠ [] := fun he => h0 (by simp [he])
    simp only [h0, if_false, reduceIte]
    by_cases hdup : tmpl.Ignore.length = (RemoveDuplicateValues tmpl.Ignore).length
    · have hnodup : tmpl.Ignore.Nodup :=
        (dedupFirst_length_eq_iff tmpl.Ignore).mp hdup.symm
      simp only [hdup, ne_eq, not_true_eq_false, if_false, reduceIte]
      rcases hsl : CheckIgnoreSlashLoop tmpl.Ignore with e | u
      · have : ¬ ∀ p ∈ tmpl.Ignore, p.data.head? = some '/' := by
          intro hall
          rw [(CheckIgnoreSlashLoop_ok_iff tmpl.Ignore).mpr hall] at hsl
          cases hsl
        simp only [hne, false_or]
        constructor
        · intro hok; cases hok
        · rintro ⟨-, hall, -⟩; exact absurd hall this
      · have hall : ∀ p ∈ tmpl.Ignore, p.data.head? = some '/' :=
          (CheckIgnoreSlashLoop_ok_iff tmpl.Ignore).mp (by rw [hsl])
        rw [CheckIgnoreConflictLoop_ok_iff]
        simp only [hne, false_or]
        constructor
        · intro hconf
          exact ⟨hnodup, hall, hconf⟩
        · rintro ⟨-, -, hconf⟩
          exact hconf
    · have hnodup : ¬ tmpl.Ignore.Nodup := by
        intro hnd
        exact hdup ((dedupFirst_length_eq_iff tmpl.Ignore).mpr hnd).symm
      simp [hdup, hne, hnodup]

/-!
## Helper lemmas: the default rule
-/

theorem countP_default_eq_one {l : List Request}
    (hids : (l.map Request.ID).Nodup) (hex : ∃ r ∈ l, r.ID = "default") :
    l.countP (fun r => r.ID == "default") = 1 := by
  induction l with
  | nil => rcases hex with ⟨r, hr, -⟩; cases hr
  | cons e es ih =>
    rw [List.map_cons, List.nodup_cons] at hids
    by_cases he : e.ID = "default"
    · have hzero : es.countP (fun r => r.ID == "default") = 0 := by
        rw [List.countP_eq_zero]
        intro r hr hrid
        exact hids.1 (by
          rw [he]
          exact List.mem_map.mpr ⟨r, hr, beq_iff_eq.mp hrid⟩)
      rw [List.countP_cons, hzero]
      simp [he]
    · have hex' : ∃ r ∈ es, r.ID = "default" := by
        rcases hex with ⟨r, hr, hrid⟩
        rcases List.mem_cons.mp hr with rfl | hr'
        · exact absurd hrid he
        · exact ⟨r, hr', hrid⟩
      rw [List.countP_cons, ih hids.2 hex']
      simp [he]

theorem Default_eq_empty_of_not_raw {tmpl : Template} (h : tmpl.type ≠ "raw") :
    Default tmpl = Request.empty := by
  unfold Default
  rw [if_neg h]

theorem Default_eq_empty_of_no_default {tmpl : Template}
    (h : ∀ r ∈ tmpl.Requests, r.ID ≠ "default") :
    Default tmpl = Request.empty := by
  unfold Default
  split
  · rw [List.find?_eq_none.mpr (by intro r hr; simpa using h r hr)]
  · rfl

theorem Default_eq_of_find? {tmpl : Template} {d : Request} (h : tmpl.type = "raw")
    (hf : tmpl.Requests.find? (fun entry => entry.ID == "default") = some d) :
    Default tmpl = d := by
  unfold Default
  rw [if_pos h, hf]

theorem Default_eq_of_mem {tmpl : Template} {d : Request} (h : tmpl.type = "raw")
    (hids : (tmpl.Requests.map Request.ID).Nodup)
    (hd : d ∈ tmpl.Requests) (hdid : d.ID = "default") :
    Default tmpl = d := by
  rcases hf : tmpl.Requests.find? (fun entry => entry.ID == "default") with _ | d'
  · rw [List.find?_eq_none] at hf
    exact absurd (by simpa using hdid) (hf d hd)
  · have hd'mem := List.mem_of_find?_eq_some hf
    have hd'id : d'.ID = "default" := by simpa using List.find?_some hf
    have : d' = d :=
      List.inj_on_of_nodup_map hids hd'mem hd (by rw [hd'id, hdid])
    rw [Default_eq_of_find? h hf, this]

/-!
## Helper lemmas: `CheckRawTeplate` as a conjunction of its checks
-/

theorem CheckRawTeplate_ok_iff_checks (tmpl : Template) :
    CheckRawTeplate tmpl = .ok () ↔
      IDUnique tmpl = true ∧ EndpointUnique tmpl = true ∧
      MissingTemplateDefault tmpl = false ∧ CheckRequests tmpl = .ok () ∧
      CheckDefaultRequest tmpl = .ok () ∧ CheckIgnore tmpl = .ok () := by
  unfold CheckRawTeplate
  cases h1 : IDUnique tmpl
  · simp
  · cases h2 : EndpointUnique tmpl
    · simp
    · cases h3 : MissingTemplateDefault tmpl
      · rcases hr : CheckRequests tmpl with e | ⟨⟩
        · simp
        · rcases hd : CheckDefaultRequest tmpl with e | ⟨⟩
          · simp
          · simp
      · simp

/-- The workhorse for C1: on a raw template, the full validator succeeds
exactly on `RawValid` templates. -/
theorem CheckRawTeplate_ok_iff {tmpl : Template} (h : tmpl.type = "raw") :
    CheckRawTeplate tmpl = .ok () ↔ RawValid tmpl := by
  rw [CheckRawTeplate_ok_iff_checks, IDUnique_eq_true_iff h, EndpointUnique_eq_true_iff h,
    MissingTemplateDefault_eq_false_iff h, CheckRequests_ok_iff, CheckDefaultRequest_ok_iff,
    CheckIgnore_ok_iff]
  unfold RawValid ClaimedRawValid
  constructor
  · rintro ⟨hids, heps, hex, hreq, hdef, hign⟩
    rcases hex with ⟨d, hd, hdid⟩
    have hDefault : Default tmpl = d := Default_eq_of_mem h hids hd hdid
    refine ⟨⟨hids, heps, countP_default_eq_one hids ⟨d, hd, hdid⟩, ?_, ?_, ?_⟩, ?_⟩
    · intro r hr hne
      exact ((ruleError_eq_none_iff r).mp (hreq r hr)).2 hne
    · intro r hr hrid
      have : r = d := List.inj_on_of_nodup_map hids hr hd (by rw [hrid, hdid])
      rw [this, ← hDefault]
      exact ⟨hdef.1, hdef.2.1, hdef.2.2⟩
    · intro hne
      exact hign.resolve_left hne
    · intro r hr
      exact ((ruleError_eq_none_iff r).mp (hreq r hr)).1
  · rintro ⟨⟨hids, heps, hcount, hnondef, hdefall, hign⟩, hidblank⟩
    have hex : ∃ r ∈ tmpl.Requests, r.ID = "default" := by
      have hpos : 0 < tmpl.Requests.countP (fun r => r.ID == "default") := by
        rw [hcount]; exact Nat.one_pos
      rcases List.countP_pos_iff.mp hpos with ⟨r, hr, hrid⟩
      exact ⟨r, hr, beq_iff_eq.mp hrid⟩
    rcases hex with ⟨d, hd, hdid⟩
    have hDefault : Default tmpl = d := Default_eq_of_mem h hids hd hdid
    refine ⟨hids, heps, ⟨d, hd, hdid⟩, ?_, ?_, ?_⟩
    · intro r hr
      exact (ruleError_eq_none_iff r).mpr ⟨hidblank r hr, fun hne => hnondef r hr hne⟩
    · rw [hDefault]
      rcases hdefall d hd hdid with ⟨h1, h2, h3⟩
      exact ⟨h1, h2, h3⟩
    · by_cases hI : tmpl.Ignore = []
      · exact Or.inl hI
      · exact Or.inr (hign hI)

theorem find?_first_match {α : Type} {p : α → Bool} (l1 : List α) (r : α)
    (l2 : List α) (h1 : ∀ x ∈ l1, ¬ p x) (hr : p r) :
    (l1 ++ r :: l2).find? p = some r := by
  induction l1 with
  | nil => simpa using List.find?_cons_of_pos l2 hr
  | cons a as ih =>
    rw [List.cons_append, List.find?_cons_of_neg _ (h1 a (List.mem_cons_self a as))]
    exact ih (fun x hx => h1 x (List.mem_cons_of_mem a hx))

theorem CheckTemplate_raw {tmpl : Template} (h : tmpl.type = "raw") :
    CheckTemplate tmpl = CheckRawTeplate tmpl := by
  unfold CheckTemplate
  rw [if_neg (by simp [h]), if_pos h]

theorem CheckTemplate_shodan {tmpl : Template} (h : tmpl.type = "shodan") :
    CheckTemplate tmpl = CheckShodanTemplate tmpl := by
  unfold CheckTemplate
  rw [if_neg (by simp [h]), if_neg (by simp [h]), if_pos h]

/-!
## The claims
-/

/-- Raw template meeting every condition of C1's claimed
characterization while carrying one rule whose id is the empty string:
the claimed right-hand side never mentions rule ids being non-blank. -/
def C1CounterTemplate : Template :=
  { type := "raw",
    Requests := [
      { ID := "default", Methods := [], Endpoint := "", ResponseType := "raw",
        ContentType := "text/plain", Content := "hi" },
      { ID := "", Methods := ["GET"], Endpoint := "/a", ResponseType := "raw",
        ContentType := "text/plain", Content := "y" }],
    Ignore := [], IP := "" }

/-- Claim C1, counterexample: this raw template satisfies the claimed
iff's right-hand side (ids pairwise distinct, endpoints pairwise
distinct, exactly one default, non-default rules complete, default rule
complete, ignore list fine), yet validation fails, because the code
also requires every rule id to be non-blank. -/
theorem C1_counterexample :
    C1CounterTemplate.type = "raw" ∧
    ClaimedRawValid C1CounterTemplate ∧
    CheckTemplate C1CounterTemplate = .error "template: missing id in request" :=
  ⟨rfl, by unfold ClaimedRawValid; decide, rfl⟩

/-- Claim C1, amended: for every template of type "raw", validation via
`CheckTemplate` (which dispatches to `CheckRawTeplate`) succeeds iff the
claimed conditions hold together with the amendment that every rule's
id is non-blank after trimming spaces (`RawValid`). -/
theorem C1_raw_validation_iff (tmpl : Template) (h : tmpl.type = "raw") :
    CheckTemplate tmpl = .ok () ↔ RawValid tmpl := by
  rw [CheckTemplate_raw h]
  exact CheckRawTeplate_ok_iff h

/-- A raw template every check accepts, used to instantiate C1. -/
def C1GoodTemplate : Template :=
  { type := "raw",
    Requests := [
      { ID := "default", Methods := [], Endpoint := "", ResponseType := "raw",
        ContentType := "text/plain", Content := "hi" },
      { ID := "r1", Methods := ["GET"], Endpoint := "/login", ResponseType := "raw",
        ContentType := "text/html", Content := "x" }],
    Ignore := ["/admin"], IP := "" }

/-- Claim C1, witness: the amended equivalence applied to a concrete
valid raw template. -/
theorem C1_witness : RawValid C1GoodTemplate :=
  (C1_raw_validation_iff C1GoodTemplate rfl).mp rfl

/-- Claim C2: for every shodan template, validation succeeds iff the ip
field is the empty string; when ip is non-empty it fails with the
"ip is mandatory" error; and the result only depends on the ip field,
so two shodan templates with equal ip validate identically. -/
theorem C2_shodan_validation (tmpl : Template) (h : tmpl.type = "shodan") :
    (CheckTemplate tmpl = .ok () ↔ tmpl.IP = "") ∧
    (tmpl.IP ≠ "" → CheckTemplate tmpl = .error "template: ip is mandatory") ∧
    (∀ tmpl2 : Template, tmpl2.type = "shodan" → tmpl2.IP = tmpl.IP →
      CheckTemplate tmpl2 = CheckTemplate tmpl) := by
  refine ⟨?_, ?_, ?_⟩
  · rw [CheckTemplate_shodan h]
    unfold CheckShodanTemplate
    by_cases hip : tmpl.IP = ""
    · simp [hip]
    · simp [hip]
  · intro hip
    rw [CheckTemplate_shodan h]
    unfold CheckShodanTemplate
    rw [if_pos hip]
  · intro tmpl2 h2 hip
    rw [CheckTemplate_shodan h, CheckTemplate_shodan h2]
    unfold CheckShodanTemplate
    rw [hip]

/-- Claim C2, witness: the equivalence and the error case at concrete
shodan templates. -/
theorem C2_witness :
    CheckTemplate { type := "shodan", Requests := [], Ignore := [], IP := "" } = .ok () ∧
    CheckTemplate { type := "shodan", Requests := [], Ignore := [], IP := "1.2.3.4" }
      = .error "template: ip is mandatory" :=
  ⟨(C2_shodan_validation _ rfl).1.mpr rfl,
   (C2_shodan_validation _ rfl).2.1 (by decide)⟩

/-- Claim C3: when every ignore entry is non-empty, the first-character
access of `CheckIgnore`'s leading-slash check is in bounds (each entry
has a first character); an empty-string ignore entry is reported as the
not-absolute-path error rather than as an indexing fault. -/
theorem C3_ignore_first_char (tmpl : Template) (h : ∀ p ∈ tmpl.Ignore, p ≠ "") :
    (∀ p ∈ tmpl.Ignore, p.data ≠ []) ∧
    CheckIgnore { type := "raw", Requests := [], Ignore := [""], IP := "" }
      = .error "template: all paths in ignore array must start with a forward slash" := by
  constructor
  · intro p hp hnil
    apply h p hp
    cases p with
    | mk data =>
      cases hnil
      rfl
  · rfl

/-- Claim C3, witness: in-bounds access at a concrete template whose
ignore entries are non-empty. -/
theorem C3_witness :
    ("/a" : String).data ≠ [] :=
  (C3_ignore_first_char { type := "raw", Requests := [], Ignore := ["/a"], IP := "" }
    (by decide)).1 "/a" (by decide)

/-- Claim C4: a template whose type is non-empty and neither "raw" nor
"shodan" validates trivially, whatever its other fields; a template
with empty type fails with the missing-type error. -/
theorem C4_other_types (tmpl : Template) :
    (tmpl.type ≠ "" → tmpl.type ≠ "raw" → tmpl.type ≠ "shodan" →
      CheckTemplate tmpl = .ok ()) ∧
    (tmpl.type = "" → CheckTemplate tmpl = .error "template: missing template type") := by
  constructor
  · intro h1 h2 h3
    unfold CheckTemplate
    rw [if_neg h1, if_neg h2, if_neg h3]
  · intro h
    unfold CheckTemplate
    rw [if_pos h]

/-- Claim C4, witness: both branches at concrete templates. -/
theorem C4_witness :
    CheckTemplate { type := "other", Requests := [], Ignore := [], IP := "" } = .ok () ∧
    CheckTemplate { type := "", Requests := [], Ignore := [], IP := "" }
      = .error "template: missing template type" :=
  ⟨(C4_other_types _).1 (by decide) (by decide) (by decide),
   (C4_other_types _).2 rfl⟩

/-- Claim C5: `CheckRawTeplate` runs its checks in the fixed order id
uniqueness, endpoint uniqueness, default presence, per-rule
completeness, default-rule completeness, ignore well-formedness, and
returns the single error of the earliest failing check. -/
theorem C5_check_order (tmpl : Template) (h : tmpl.type = "raw") :
    (IDUnique tmpl = false →
      CheckRawTeplate tmpl = .error "template: request IDs are not unique") ∧
    (IDUnique tmpl = true → EndpointUnique tmpl = false →
      CheckRawTeplate tmpl = .error "template: request endpoints are not unique") ∧
    (IDUnique tmpl = true → EndpointUnique tmpl = true →
      MissingTemplateDefault tmpl = true →
      CheckRawTeplate tmpl = .error "template: missing default request") ∧
    (∀ e, IDUnique tmpl = true → EndpointUnique tmpl = true →
      MissingTemplateDefault tmpl = false → CheckRequests tmpl = .error e →
      CheckRawTeplate tmpl = .error e) ∧
    (∀ e, IDUnique tmpl = true → EndpointUnique tmpl = true →
      MissingTemplateDefault tmpl = false → CheckRequests tmpl = .ok () →
      CheckDefaultRequest tmpl = .error e →
      CheckRawTeplate tmpl = .error e) ∧
    (IDUnique tmpl = true → EndpointUnique tmpl = true →
      MissingTemplateDefault tmpl = false → CheckRequests tmpl = .ok () →
      CheckDefaultRequest tmpl = .ok () →
      CheckRawTeplate tmpl = CheckIgnore tmpl) := by
  unfold CheckRawTeplate
  refine ⟨?_, ?_, ?_, ?_, ?_, ?_⟩ <;> intros <;> simp_all

def C5T1 : Template :=
  ⟨"raw", [⟨"a", [], "/x", "", "", ""⟩, ⟨"a", [], "/y", "", "", ""⟩], [], ""⟩

def C5T2 : Template :=
  ⟨"raw", [⟨"a", [], "/x", "", "", ""⟩, ⟨"b", [], "/x", "", "", ""⟩], [], ""⟩

def C5T3 : Template :=
  ⟨"raw", [⟨"a", [], "/x", "", "", ""⟩], [], ""⟩

def C5T4 : Template :=
  ⟨"raw", [⟨"default", [], "", "raw", "ct", "c"⟩, ⟨"r", [], "/a", "", "", ""⟩], [], ""⟩

def C5T5 : Template :=
  ⟨"raw", [⟨"default", [], "", "", "", ""⟩], [], ""⟩

def C5T6 : Template :=
  ⟨"raw", [⟨"default", [], "", "raw", "ct", "c"⟩], ["/z"], ""⟩

/-- Claim C5, witness: each branch of the ordering theorem at a
concrete raw template violating exactly that check first. -/
theorem C5_witness :
    CheckRawTeplate C5T1 = .error "template: request IDs are not unique" ∧
    CheckRawTeplate C5T2 = .error "template: request endpoints are not unique" ∧
    CheckRawTeplate C5T3 = .error "template: missing default request" ∧
    CheckRawTeplate C5T4 = .error "template: missing methods in request with id r" ∧
    CheckRawTeplate C5T5 = .error "template: missing response type in default request" ∧
    CheckRawTeplate C5T6 = CheckIgnore C5T6 :=
  ⟨(C5_check_order C5T1 rfl).1 rfl,
   (C5_check_order C5T2 rfl).2.1 rfl rfl,
   (C5_check_order C5T3 rfl).2.2.1 rfl rfl rfl,
   (C5_check_order C5T4 rfl).2.2.2.1 _ rfl rfl rfl rfl,
   (C5_check_order C5T5 rfl).2.2.2.2.1 _ rfl rfl rfl rfl rfl,
   (C5_check_order C5T6 rfl).2.2.2.2.2 rfl rfl rfl rfl rfl⟩

/-- Claim C6: `CheckRequests` scans the rules in declared order and
returns the error of the first rule violating a requirement, where a
rule's own first violation follows the fixed order id, then (for
non-default rules) endpoint, methods, response type, content type,
content — exactly `List.findSome?` of `ruleError`. -/
theorem C6_requests_first_violation (tmpl : Template) :
    CheckRequests tmpl
      = (match tmpl.Requests.findSome? ruleError with
         | some e => Except.error e
         | none => Except.ok ()) :=
  CheckRequestsLoop_eq_findSome? tmpl.Requests

/-- Claim C7: `Default` on a raw template returns the first rule in
declared order with id "default", the zero `Request` when no rule has
that id, and the zero `Request` for every non-raw template whatever its
rules are. -/
theorem C7_default_selection (tmpl : Template) :
    (∀ l1 r l2, tmpl.type = "raw" → tmpl.Requests = l1 ++ r :: l2 →
      r.ID = "default" → (∀ r' ∈ l1, r'.ID ≠ "default") → Default tmpl = r) ∧
    (tmpl.type = "raw" → (∀ r ∈ tmpl.Requests, r.ID ≠ "default") →
      Default tmpl = Request.empty) ∧
    (tmpl.type ≠ "raw" →
      ∀ reqs : List Request,
        Default ⟨tmpl.type, reqs, tmpl.Ignore, tmpl.IP⟩ = Request.empty) := by
  refine ⟨?_, ?_, ?_⟩
  · intro l1 r l2 h hsplit hrid hl1
    apply Default_eq_of_find? h
    rw [hsplit]
    exact find?_first_match l1 r l2
      (fun x hx => by simpa using hl1 x hx) (by simpa using hrid)
  · intro _ hnone
    exact Default_eq_empty_of_no_default hnone
  · intro h reqs
    exact Default_eq_empty_of_not_raw h

def C7T : Template :=
  ⟨"raw",
   [⟨"a", [], "/x", "", "", ""⟩, ⟨"default", [], "", "raw", "ct", "c"⟩,
    ⟨"b", [], "/y", "", "", ""⟩],
   [], ""⟩

/-- Claim C7, witness: the three branches at concrete templates. -/
theorem C7_witness :
    Default C7T = ⟨"default", [], "", "raw", "ct", "c"⟩ ∧
    Default ⟨"raw", [⟨"a", [], "/x", "", "", ""⟩], [], ""⟩ = Request.empty ∧
    Default ⟨"shodan", [⟨"default", [], "", "raw", "ct", "c"⟩], [], ""⟩ = Request.empty :=
  ⟨(C7_default_selection C7T).1 [⟨"a", [], "/x", "", "", ""⟩]
      ⟨"default", [], "", "raw", "ct", "c"⟩ [⟨"b", [], "/y", "", "", ""⟩]
      rfl rfl rfl (by decide),
   (C7_default_selection ⟨"raw", [⟨"a", [], "/x", "", "", ""⟩], [], ""⟩).2.1
      rfl (by decide),
   (C7_default_selection ⟨"shodan", [], [], ""⟩).2.2 (by decide)
      [⟨"default", [], "", "raw", "ct", "c"⟩]⟩

/-- Claim C8: `HTTPMethodsAsString` returns a list of the same length
whose element at each position is the textual token of the method at
that position, preserving order and performing no validation or
filtering. -/
theorem C8_methods_as_string (methods : List HTTPMethod) :
    (HTTPMethodsAsString methods).length = methods.length ∧
    ∀ i : Nat, (HTTPMethodsAsString methods).get? i
      = (methods.get? i).map (fun method => (method : String)) := by
  have hfold : ∀ (l : List HTTPMethod) (acc : List String),
      l.foldl (fun result method => result ++ [method]) acc = acc ++ l := by
    intro l
    induction l with
    | nil => intro acc; simp
    | cons m ms ih =>
      intro acc
      rw [List.foldl_cons, ih]
      simp
  have hid : HTTPMethodsAsString methods = methods := by
    unfold HTTPMethodsAsString
    rw [hfold]
    simp
  rw [hid]
  refine ⟨rfl, fun i => ?_⟩
  cases h : methods.get? i <;> simp

/-- Claim C9: on every template that is not raw, and on every raw
template with no rule of id "default", `Default` yields the zero
`Request`, so a standalone `CheckDefaultRequest` always returns the
missing-response-type-in-default-request error — in particular it never
succeeds for a shodan template, contrary to its doc comment. -/
theorem C9_check_default_standalone (tmpl : Template)
    (h : tmpl.type ≠ "raw" ∨ ∀ r ∈ tmpl.Requests, r.ID ≠ "default") :
    Default tmpl = Request.empty ∧
    CheckDefaultRequest tmpl = .error "template: missing response type in default request" := by
  have hempty : Default tmpl = Request.empty := by
    rcases h with h | h
    · exact Default_eq_empty_of_not_raw h
    · exact Default_eq_empty_of_no_default h
  refine ⟨hempty, ?_⟩
  simp only [CheckDefaultRequest, hempty]
  rfl

/-- Claim C9, witness: a concrete shodan template. -/
theorem C9_witness :
    Default ⟨"shodan", [], [], "1.2.3.4"⟩ = Request.empty ∧
    CheckDefaultRequest ⟨"shodan", [], [], "1.2.3.4"⟩
      = .error "template: missing response type in default request" :=
  C9_check_default_standalone _ (Or.inl (by decide))

/-- Raw template with two rules that share the empty endpoint and also
share an id: the id-uniqueness check fires before the endpoint check. -/
def C10CounterTemplate : Template :=
  ⟨"raw", [⟨"a", [], "", "", "", ""⟩, ⟨"a", [], "", "", "", ""⟩], [], ""⟩

/-- Claim C10, counterexample: a raw template with two empty-endpoint
rules on which validation does not fail with the duplicate-endpoint
error (the duplicate-id check fires first), refuting the claim as
universally stated; `EndpointUnique` is still false. -/
theorem C10_counterexample :
    C10CounterTemplate.type = "raw" ∧
    2 ≤ C10CounterTemplate.Requests.countP (fun r => r.Endpoint == "") ∧
    EndpointUnique C10CounterTemplate = false ∧
    CheckTemplate C10CounterTemplate = .error "template: request IDs are not unique" ∧
    CheckTemplate C10CounterTemplate ≠ .error "template: request endpoints are not unique" := by
  refine ⟨rfl, by decide, rfl, rfl, ?_⟩
  intro hcontra
  rw [show CheckTemplate C10CounterTemplate
      = .error "template: request IDs are not unique" from rfl] at hcontra
  exact absurd (Except.error.inj hcontra) (by decide)

/-- Claim C10, amended: for every raw template whose rule ids are
pairwise distinct, two or more rules with an empty endpoint make
`EndpointUnique` false and validation fails with the duplicate-endpoint
error, before any field-completeness check runs: the default rule's
absent endpoint participates in uniqueness as the empty string. -/
theorem C10_empty_endpoints_collide (tmpl : Template) (h : tmpl.type = "raw")
    (hids : (tmpl.Requests.map Request.ID).Nodup)
    (h2 : 2 ≤ tmpl.Requests.countP (fun r => r.Endpoint == "")) :
    EndpointUnique tmpl = false ∧
    CheckTemplate tmpl = .error "template: request endpoints are not unique" := by
  have hcounts : (tmpl.Requests.map Request.Endpoint).count ""
      = tmpl.Requests.countP (fun r => r.Endpoint == "") := by
    rw [List.count_eq_countP, List.countP_map]
    rfl
  have hnotnodup : ¬ (tmpl.Requests.map Request.Endpoint).Nodup := by
    intro hnd
    have hle := List.nodup_iff_count_le_one.mp hnd ""
    rw [hcounts] at hle
    omega
  have hep : EndpointUnique tmpl = false := by
    cases hE : EndpointUnique tmpl
    · rfl
    · exact absurd ((EndpointUnique_eq_true_iff h).mp hE) hnotnodup
  have hID : IDUnique tmpl = true := (IDUnique_eq_true_iff h).mpr hids
  refine ⟨hep, ?_⟩
  rw [CheckTemplate_raw h]
  unfold CheckRawTeplate
  simp [hID, hep]

/-- Raw template matching C10's own example: the default rule plus one
other rule that omits its endpoint, ids distinct. -/
def C10T : Template :=
  ⟨"raw", [⟨"default", [], "", "raw", "ct", "c"⟩, ⟨"x", ["GET"], "", "raw", "ct", "c"⟩], [], ""⟩

/-- Claim C10, witness: the amended theorem at the claim's own example
template. -/
theorem C10_witness :
    EndpointUnique C10T = false ∧
    CheckTemplate C10T = .error "template: request endpoints are not unique" :=
  C10_empty_endpoints_collide C10T rfl (by decide) (by decide)

end Boggart
